import Mathlib

/-!
Verification of the INDI FocuserInterface core
(src/libindi/libs/indibase/indifocuserinterface.h).

The header declares the capability bitmask, its queries
(GetCapability, SetCapability, CanAbsMove, CanRelMove, CanAbort,
HasVariableSpeed), the abstract motion primitives (SetFocuserSpeed,
MoveFocuser, MoveAbsFocuser, MoveRelFocuser, AbortFocuser) and the two
dispatch entry points processNumber / processSwitch.  The capability
model is implemented inline in the header and is embedded here verbatim;
the dispatcher bodies live in a translation unit that is not part of the
sources, so the dispatcher is modelled from the specification
(sections 4.2, 4.3, 7 and 8 of the design document).
-/

namespace INDI

/-- Focus direction, from the FocusDirection enum of the header. -/
inductive FocusDirection
  | FOCUS_INWARD
  | FOCUS_OUTWARD
deriving DecidableEq

/-- FOCUSER_CAN_ABS_MOVE = 1 << 0, from the FocuserCapability enum. -/
def FOCUSER_CAN_ABS_MOVE : Nat := 1 <<< 0

/-- FOCUSER_CAN_REL_MOVE = 1 << 1, from the FocuserCapability enum. -/
def FOCUSER_CAN_REL_MOVE : Nat := 1 <<< 1

/-- FOCUSER_CAN_ABORT = 1 << 2, from the FocuserCapability enum. -/
def FOCUSER_CAN_ABORT : Nat := 1 <<< 2

/-- FOCUSER_HAS_VARIABLE_SPEED = 1 << 3, from the FocuserCapability enum. -/
def FOCUSER_HAS_VARIABLE_SPEED : Nat := 1 <<< 3

/-- Tri-state outcome of a motion primitive: IPS_OK maps to Completed,
IPS_BUSY to InProgress, IPS_ALERT to Failed (doc comments of
MoveFocuser, MoveAbsFocuser, MoveRelFocuser in the header). -/
inductive OperationOutcome
  | Completed
  | InProgress
  | Failed
deriving DecidableEq

/-- Modelled from the spec: the MotionState snapshot of section 4.2.
The dispatcher implementation that mutates the property vectors
(FocusSpeedN, FocusTimerN, FocusAbsPosN, FocusRelPosN of the header) is
not among the sources; the last requested parameters of each command
kind and the per-kind tri-state outcome are kept here explicitly, with
none standing for the idle / never-requested state. -/
structure MotionState where
  lastSpeed : Option Int
  lastTimedDir : Option FocusDirection
  lastTimerDuration : Option Nat
  lastAbsPos : Option Nat
  lastRelDir : Option FocusDirection
  lastRelTicks : Option Nat
  speedOutcome : Option OperationOutcome
  timedOutcome : Option OperationOutcome
  absOutcome : Option OperationOutcome
  relOutcome : Option OperationOutcome
deriving DecidableEq

/-- The interface state: the uint32_t capability field of the header
together with the motion bookkeeping. -/
structure FocuserState where
  capability : Nat
  motion : MotionState
deriving DecidableEq

/-- uint32_t GetCapability() const : returns the capability field. -/
def GetCapability (s : FocuserState) : Nat :=
  s.capability

/-- void SetCapability(uint32_t cap) : stores cap into the capability
field; the uint32_t parameter truncates to 32 bits. -/
def SetCapability (cap : Nat) (s : FocuserState) : FocuserState :=
  { s with capability := cap % 2 ^ 32 }

/-- bool CanAbsMove() : capability & FOCUSER_CAN_ABS_MOVE. -/
def CanAbsMove (s : FocuserState) : Bool :=
  s.capability &&& FOCUSER_CAN_ABS_MOVE != 0

/-- bool CanRelMove() : capability & FOCUSER_CAN_REL_MOVE. -/
def CanRelMove (s : FocuserState) : Bool :=
  s.capability &&& FOCUSER_CAN_REL_MOVE != 0

/-- bool CanAbort() : capability & FOCUSER_CAN_ABORT. -/
def CanAbort (s : FocuserState) : Bool :=
  s.capability &&& FOCUSER_CAN_ABORT != 0

/-- bool HasVariableSpeed() : capability & FOCUSER_HAS_VARIABLE_SPEED. -/
def HasVariableSpeed (s : FocuserState) : Bool :=
  s.capability &&& FOCUSER_HAS_VARIABLE_SPEED != 0

/-- The abstract primitives a concrete driver supplies (the virtual
functions of the header), as a pure test double: SetFocuserSpeed and
AbortFocuser report boolean success, the three move primitives report
the tri-state outcome. -/
structure Driver where
  SetFocuserSpeed : Int → Bool
  MoveFocuser : FocusDirection → Int → Nat → OperationOutcome
  MoveAbsFocuser : Nat → OperationOutcome
  MoveRelFocuser : FocusDirection → Nat → OperationOutcome
  AbortFocuser : Bool

/-- The closed set of commands routed into the dispatcher: speed set,
timed move, absolute move, relative move and abort (the FOCUS_SPEED,
FOCUS_MOTION with FOCUS_TIMER, FOCUS_ABSOLUTE_POSITION,
FOCUS_RELATIVE_POSITION and FOCUS_ABORT_MOTION channels handled by
processNumber and processSwitch). -/
inductive Command
  | setSpeed (speed : Int)
  | timedMove (dir : FocusDirection) (speed : Int) (duration : Nat)
  | absMove (ticks : Nat)
  | relMove (dir : FocusDirection) (ticks : Nat)
  | abort
deriving DecidableEq

/-- A record of one primitive invocation, for the call count on the
test double. -/
inductive PrimCall
  | setFocuserSpeed (speed : Int)
  | moveFocuser (dir : FocusDirection) (speed : Int) (duration : Nat)
  | moveAbsFocuser (ticks : Nat)
  | moveRelFocuser (dir : FocusDirection) (ticks : Nat)
  | abortFocuser
deriving DecidableEq

/-- What the dispatcher surfaces to the caller: an
unsupported-capability rejection, detected locally, or the tri-state
outcome reported by the invoked primitive. -/
inductive DispatchResult
  | rejected
  | result (o : OperationOutcome)
deriving DecidableEq

/-- Modelled from the spec: the capability each command requires
(section 4.3 step 1; the processNumber / processSwitch bodies are not
among the sources).  Absolute move requires FOCUSER_CAN_ABS_MOVE,
relative move FOCUSER_CAN_REL_MOVE, abort FOCUSER_CAN_ABORT.  The spec
leaves the gate of the timed move implicit; since its speed parameter
is meaningful only under variable speed, both the speed set and the
timed move are gated on FOCUSER_HAS_VARIABLE_SPEED, which realises the
section 8 requirement that with no capability bits set every command is
rejected. -/
def hasRequiredCap (s : FocuserState) : Command → Bool
  | Command.setSpeed _ => HasVariableSpeed s
  | Command.timedMove _ _ _ => HasVariableSpeed s
  | Command.absMove _ => CanAbsMove s
  | Command.relMove _ _ => CanRelMove s
  | Command.abort => CanAbort s

/-- Modelled from the spec: the unconditional parameter recording of
section 4.2 (record_speed_request, record_timed_move,
record_absolute_move, record_relative_move), the dispatcher bodies
being absent from the sources.  Each command stores the parameters of
the most recent request of its kind and touches no outcome. -/
def recordParams : Command → MotionState → MotionState
  | Command.setSpeed v, m => { m with lastSpeed := some v }
  | Command.timedMove d _ t, m =>
      { m with lastTimedDir := some d, lastTimerDuration := some t }
  | Command.absMove p, m => { m with lastAbsPos := some p }
  | Command.relMove d p, m =>
      { m with lastRelDir := some d, lastRelTicks := some p }
  | Command.abort, m => m

/-- Maps the boolean success of SetFocuserSpeed or AbortFocuser to the
tri-state vocabulary surfaced to callers. -/
def boolOutcome (b : Bool) : OperationOutcome :=
  if b then OperationOutcome.Completed else OperationOutcome.Failed

/-- Resolution of one outcome slot by a successful abort: an in-progress
operation completes, everything else is untouched. -/
def resolveOutcome : Option OperationOutcome → Option OperationOutcome
  | some OperationOutcome.InProgress => some OperationOutcome.Completed
  | o => o

/-- Modelled from the spec: a successful abort transitions every
currently in-progress outcome to a terminal state (section 4.3 step 3
and the section 8 scenario), the AbortFocuser dispatch body being
absent from the sources. -/
def resolveInProgress (m : MotionState) : MotionState :=
  { m with
    speedOutcome := resolveOutcome m.speedOutcome
    timedOutcome := resolveOutcome m.timedOutcome
    absOutcome := resolveOutcome m.absOutcome
    relOutcome := resolveOutcome m.relOutcome }

/-- Modelled from the spec: the CommandDispatcher of section 4.3, whose
implementation (the bodies of processNumber and processSwitch) is not
among the sources.  Validate against the capability mask, record the
requested parameters unconditionally (section 8: recording is
rejection-independent), on a missing capability reject without calling
any primitive and without touching any outcome, otherwise invoke the
one corresponding primitive and map its result into the outcome slot of
that kind and into the value surfaced to the caller.  The returned
triple is the caller-visible result, the successor state, and the list
of primitive invocations made. -/
def dispatch (D : Driver) (cmd : Command) (s : FocuserState) :
    DispatchResult × FocuserState × List PrimCall :=
  let m := recordParams cmd s.motion
  if hasRequiredCap s cmd then
    match cmd with
    | Command.setSpeed v =>
        let o := boolOutcome (D.SetFocuserSpeed v)
        (DispatchResult.result o,
         { s with motion := { m with speedOutcome := some o } },
         [PrimCall.setFocuserSpeed v])
    | Command.timedMove d v t =>
        let o := D.MoveFocuser d v t
        (DispatchResult.result o,
         { s with motion := { m with timedOutcome := some o } },
         [PrimCall.moveFocuser d v t])
    | Command.absMove p =>
        let o := D.MoveAbsFocuser p
        (DispatchResult.result o,
         { s with motion := { m with absOutcome := some o } },
         [PrimCall.moveAbsFocuser p])
    | Command.relMove d p =>
        let o := D.MoveRelFocuser d p
        (DispatchResult.result o,
         { s with motion := { m with relOutcome := some o } },
         [PrimCall.moveRelFocuser d p])
    | Command.abort =>
        if D.AbortFocuser then
          (DispatchResult.result OperationOutcome.Completed,
           { s with motion := resolveInProgress m },
           [PrimCall.abortFocuser])
        else
          (DispatchResult.result OperationOutcome.Failed,
           { s with motion := m },
           [PrimCall.abortFocuser])
  else
    (DispatchResult.rejected, { s with motion := m }, [])

/-- The primitive invocation a command corresponds to, for stating the
iff between capability presence and the call count. -/
def primCallOf : Command → PrimCall
  | Command.setSpeed v => PrimCall.setFocuserSpeed v
  | Command.timedMove d v t => PrimCall.moveFocuser d v t
  | Command.absMove p => PrimCall.moveAbsFocuser p
  | Command.relMove d p => PrimCall.moveRelFocuser d p
  | Command.abort => PrimCall.abortFocuser

/-- True when no outcome slot is in progress. -/
def noInProgress (m : MotionState) : Bool :=
  m.speedOutcome != some OperationOutcome.InProgress &&
  m.timedOutcome != some OperationOutcome.InProgress &&
  m.absOutcome != some OperationOutcome.InProgress &&
  m.relOutcome != some OperationOutcome.InProgress

/-- The motion bookkeeping at construction: nothing requested, every
outcome idle. -/
def initMotionState : MotionState :=
  { lastSpeed := none
    lastTimedDir := none
    lastTimerDuration := none
    lastAbsPos := none
    lastRelDir := none
    lastRelTicks := none
    speedOutcome := none
    timedOutcome := none
    absOutcome := none
    relOutcome := none }

/-- A fresh interface whose constructor called SetCapability with the
given mask. -/
def initState (cap : Nat) : FocuserState :=
  SetCapability cap { capability := 0, motion := initMotionState }

/-- A concrete test double for the witnesses. -/
def testDriver : Driver :=
  { SetFocuserSpeed := fun _ => true
    MoveFocuser := fun _ _ _ => OperationOutcome.InProgress
    MoveAbsFocuser := fun _ => OperationOutcome.InProgress
    MoveRelFocuser := fun _ _ => OperationOutcome.Completed
    AbortFocuser := true }

end INDI

namespace INDI

theorem dispatch_of_rejected (D : Driver) (s : FocuserState) (cmd : Command)
    (h : hasRequiredCap s cmd = false) :
    dispatch D cmd s =
      (DispatchResult.rejected, { s with motion := recordParams cmd s.motion }, []) := by
  simp [dispatch, h]

theorem dispatch_calls (D : Driver) (s : FocuserState) (cmd : Command) :
    (dispatch D cmd s).2.2 =
      if hasRequiredCap s cmd then [primCallOf cmd] else [] := by
  cases h : hasRequiredCap s cmd <;>
    cases cmd <;>
      cases hD : D.AbortFocuser <;>
        simp [dispatch, primCallOf, h, hD]

theorem resolveOutcome_id (o : Option OperationOutcome)
    (h : o ≠ some OperationOutcome.InProgress) : resolveOutcome o = o := by
  match o with
  | none => rfl
  | some OperationOutcome.Completed => rfl
  | some OperationOutcome.Failed => rfl
  | some OperationOutcome.InProgress => exact absurd rfl h

theorem resolveInProgress_id (m : MotionState) (h : noInProgress m = true) :
    resolveInProgress m = m := by
  simp only [noInProgress, Bool.and_eq_true, bne_iff_ne, ne_eq] at h
  unfold resolveInProgress
  rw [resolveOutcome_id _ h.1.1.1, resolveOutcome_id _ h.1.1.2,
    resolveOutcome_id _ h.1.2, resolveOutcome_id _ h.2]

theorem resolveOutcome_ne_inprogress (o : Option OperationOutcome) :
    resolveOutcome o ≠ some OperationOutcome.InProgress := by
  match o with
  | none => simp [resolveOutcome]
  | some OperationOutcome.Completed => simp [resolveOutcome]
  | some OperationOutcome.Failed => simp [resolveOutcome]
  | some OperationOutcome.InProgress => simp [resolveOutcome]

/-- C1: for every capability set, every driver and every command kind,
the dispatch invokes the corresponding abstract primitive exactly once
iff the capability the command requires is present; when it is absent
the dispatch returns a rejection and no primitive is called. -/
theorem C1_capability_gated_dispatch (D : Driver) (s : FocuserState) (cmd : Command) :
    ((dispatch D cmd s).2.2 = [primCallOf cmd] ↔ hasRequiredCap s cmd = true)
    ∧ (hasRequiredCap s cmd = false →
        (dispatch D cmd s).1 = DispatchResult.rejected
        ∧ (dispatch D cmd s).2.2 = []) := by
  cases h : hasRequiredCap s cmd
  · rw [dispatch_of_rejected D s cmd h]
    simp
  · constructor
    · rw [dispatch_calls]
      simp [h]
    · intro hf
      exact absurd hf (by simp [h])

/-- Witness for C1 on an absolute move against a capability set holding
only the absolute-move bit. -/
theorem C1_capability_gated_dispatch_witness :
    ((dispatch testDriver (Command.absMove 5) (initState 1)).2.2 =
        [primCallOf (Command.absMove 5)] ↔
      hasRequiredCap (initState 1) (Command.absMove 5) = true)
    ∧ (hasRequiredCap (initState 1) (Command.absMove 5) = false →
        (dispatch testDriver (Command.absMove 5) (initState 1)).1 = DispatchResult.rejected
        ∧ (dispatch testDriver (Command.absMove 5) (initState 1)).2.2 = []) :=
  C1_capability_gated_dispatch testDriver (initState 1) (Command.absMove 5)

end INDI

namespace INDI

/-- C2: a dispatch rejected for a missing capability still records the
requested parameters into MotionState while leaving the outcome of that
operation kind unchanged; for an absolute move to any position, the
rejected dispatch leaves the last requested position equal to that
position and the absolute-move outcome as it was before. -/
theorem C2_rejected_absmove_records (D : Driver) (s : FocuserState) (pos : Nat)
    (h : CanAbsMove s = false) :
    (dispatch D (Command.absMove pos) s).1 = DispatchResult.rejected
    ∧ ((dispatch D (Command.absMove pos) s).2.1).motion.lastAbsPos = some pos
    ∧ ((dispatch D (Command.absMove pos) s).2.1).motion.absOutcome
        = s.motion.absOutcome := by
  have hc : hasRequiredCap s (Command.absMove pos) = false := h
  rw [dispatch_of_rejected D s _ hc]
  simp [recordParams]

/-- Witness for C2: a rejected absolute move to 500 on a
no-capabilities interface records 500 and keeps the outcome. -/
theorem C2_rejected_absmove_records_witness :
    CanAbsMove (initState 0) = false
    ∧ ((dispatch testDriver (Command.absMove 500) (initState 0)).1 = DispatchResult.rejected
        ∧ ((dispatch testDriver (Command.absMove 500) (initState 0)).2.1).motion.lastAbsPos
            = some 500
        ∧ ((dispatch testDriver (Command.absMove 500) (initState 0)).2.1).motion.absOutcome
            = (initState 0).motion.absOutcome) :=
  ⟨by decide, C2_rejected_absmove_records testDriver (initState 0) 500 (by decide)⟩

/-- C3: abort is idempotent.  With CanAbort present, a successful abort
primitive, and no outcome in progress, the abort dispatch returns
success and leaves the whole state unchanged; moreover abort on any
state with CanAbort present is never rejected, whatever outcomes are in
progress. -/
theorem C3_abort_idempotent (D : Driver) (s : FocuserState)
    (hc : CanAbort s = true) (hp : noInProgress s.motion = true)
    (hb : D.AbortFocuser = true) :
    (dispatch D Command.abort s).1 = DispatchResult.result OperationOutcome.Completed
    ∧ (dispatch D Command.abort s).2.1 = s
    ∧ ∀ t : FocuserState, CanAbort t = true →
        (dispatch D Command.abort t).1 ≠ DispatchResult.rejected := by
  have hr : hasRequiredCap s Command.abort = true := hc
  refine ⟨?_, ?_, ?_⟩
  · simp [dispatch, hr, hb]
  · simp [dispatch, hr, hb, recordParams, resolveInProgress_id s.motion hp]
  · intro t ht hcontra
    have hrt : hasRequiredCap t Command.abort = true := ht
    cases hD : D.AbortFocuser <;> simp [dispatch, hrt, hD] at hcontra

/-- Witness for C3 on an interface holding only CanAbort, with every
outcome idle. -/
theorem C3_abort_idempotent_witness :
    CanAbort (initState 4) = true
    ∧ noInProgress (initState 4).motion = true
    ∧ testDriver.AbortFocuser = true
    ∧ ((dispatch testDriver Command.abort (initState 4)).1
          = DispatchResult.result OperationOutcome.Completed
        ∧ (dispatch testDriver Command.abort (initState 4)).2.1 = initState 4
        ∧ ∀ t : FocuserState, CanAbort t = true →
            (dispatch testDriver Command.abort t).1 ≠ DispatchResult.rejected) :=
  ⟨by decide, by decide, by decide,
    C3_abort_idempotent testDriver (initState 4) (by decide) (by decide) (by decide)⟩

/-- C4: after an abort dispatch whose primitive reports success (with
CanAbort present), no operation kind is left in progress, and every
kind that was in progress beforehand has been resolved to the terminal
Completed outcome. -/
theorem C4_abort_resolves_inprogress (D : Driver) (s : FocuserState)
    (hc : CanAbort s = true) (hb : D.AbortFocuser = true) :
    noInProgress ((dispatch D Command.abort s).2.1).motion = true
    ∧ (s.motion.speedOutcome = some OperationOutcome.InProgress →
        ((dispatch D Command.abort s).2.1).motion.speedOutcome
          = some OperationOutcome.Completed)
    ∧ (s.motion.timedOutcome = some OperationOutcome.InProgress →
        ((dispatch D Command.abort s).2.1).motion.timedOutcome
          = some OperationOutcome.Completed)
    ∧ (s.motion.absOutcome = some OperationOutcome.InProgress →
        ((dispatch D Command.abort s).2.1).motion.absOutcome
          = some OperationOutcome.Completed)
    ∧ (s.motion.relOutcome = some OperationOutcome.InProgress →
        ((dispatch D Command.abort s).2.1).motion.relOutcome
          = some OperationOutcome.Completed) := by
  have hr : hasRequiredCap s Command.abort = true := hc
  refine ⟨?_, ?_, ?_, ?_, ?_⟩
  · simp [dispatch, hr, hb, recordParams, resolveInProgress, noInProgress,
      resolveOutcome_ne_inprogress]
  · intro hin
    simp [dispatch, hr, hb, recordParams, resolveInProgress, hin, resolveOutcome]
  · intro hin
    simp [dispatch, hr, hb, recordParams, resolveInProgress, hin, resolveOutcome]
  · intro hin
    simp [dispatch, hr, hb, recordParams, resolveInProgress, hin, resolveOutcome]
  · intro hin
    simp [dispatch, hr, hb, recordParams, resolveInProgress, hin, resolveOutcome]

/-- A CanAbort interface whose absolute move is in progress, for the
C4 witness. -/
def stInP : FocuserState :=
  { capability := 4
    motion := { initMotionState with absOutcome := some OperationOutcome.InProgress } }

/-- Witness for C4 on a CanAbort interface whose absolute move is in
progress. -/
theorem C4_abort_resolves_inprogress_witness :
    CanAbort stInP = true
    ∧ testDriver.AbortFocuser = true
    ∧ (noInProgress ((dispatch testDriver Command.abort stInP).2.1).motion = true
        ∧ (stInP.motion.speedOutcome = some OperationOutcome.InProgress →
            ((dispatch testDriver Command.abort stInP).2.1).motion.speedOutcome
              = some OperationOutcome.Completed)
        ∧ (stInP.motion.timedOutcome = some OperationOutcome.InProgress →
            ((dispatch testDriver Command.abort stInP).2.1).motion.timedOutcome
              = some OperationOutcome.Completed)
        ∧ (stInP.motion.absOutcome = some OperationOutcome.InProgress →
            ((dispatch testDriver Command.abort stInP).2.1).motion.absOutcome
              = some OperationOutcome.Completed)
        ∧ (stInP.motion.relOutcome = some OperationOutcome.InProgress →
            ((dispatch testDriver Command.abort stInP).2.1).motion.relOutcome
              = some OperationOutcome.Completed)) :=
  ⟨by decide, by decide,
    C4_abort_resolves_inprogress testDriver stInP (by decide) (by decide)⟩

end INDI

namespace INDI

/-- C5: with the empty capability mask, every dispatch, including
abort, is rejected and no primitive is invoked. -/
theorem C5_empty_capabilities_reject_all (D : Driver) (s : FocuserState)
    (cmd : Command) (h : s.capability = 0) :
    (dispatch D cmd s).1 = DispatchResult.rejected
    ∧ (dispatch D cmd s).2.2 = [] := by
  have hc : hasRequiredCap s cmd = false := by
    cases cmd <;>
      simp [hasRequiredCap, CanAbsMove, CanRelMove, CanAbort, HasVariableSpeed,
        h, Nat.zero_and]
  rw [dispatch_of_rejected D s cmd hc]
  exact ⟨rfl, rfl⟩

/-- Witness for C5: abort on a freshly constructed interface with no
capability bits is rejected with no primitive call. -/
theorem C5_empty_capabilities_reject_all_witness :
    (initState 0).capability = 0
    ∧ ((dispatch testDriver Command.abort (initState 0)).1 = DispatchResult.rejected
        ∧ (dispatch testDriver Command.abort (initState 0)).2.2 = []) :=
  ⟨by decide, C5_empty_capabilities_reject_all testDriver (initState 0)
    Command.abort (by decide)⟩

/-- C6: a dispatch whose required capability is absent surfaces the
dedicated rejection value, which differs from every primitive-reported
outcome, so a caller can always tell an unsupported operation from a
hardware-reported failure; no primitive is reached. -/
theorem C6_rejection_distinct_from_failure (D : Driver) (s : FocuserState)
    (cmd : Command) (h : hasRequiredCap s cmd = false) :
    (dispatch D cmd s).1 = DispatchResult.rejected
    ∧ (∀ o : OperationOutcome, (dispatch D cmd s).1 ≠ DispatchResult.result o)
    ∧ (dispatch D cmd s).2.2 = [] := by
  rw [dispatch_of_rejected D s cmd h]
  exact ⟨rfl, fun o hco => DispatchResult.noConfusion hco, rfl⟩

/-- Witness for C6: a relative move without CanRelMove is rejected,
distinguishably from every primitive outcome. -/
theorem C6_rejection_distinct_from_failure_witness :
    hasRequiredCap (initState 1) (Command.relMove FocusDirection.FOCUS_OUTWARD 10) = false
    ∧ ((dispatch testDriver (Command.relMove FocusDirection.FOCUS_OUTWARD 10)
          (initState 1)).1 = DispatchResult.rejected
        ∧ (∀ o : OperationOutcome,
            (dispatch testDriver (Command.relMove FocusDirection.FOCUS_OUTWARD 10)
              (initState 1)).1 ≠ DispatchResult.result o)
        ∧ (dispatch testDriver (Command.relMove FocusDirection.FOCUS_OUTWARD 10)
            (initState 1)).2.2 = []) :=
  ⟨by decide, C6_rejection_distinct_from_failure testDriver (initState 1)
    (Command.relMove FocusDirection.FOCUS_OUTWARD 10) (by decide)⟩

/-- Counterexample to C7: on an interface without HasVariableSpeed the
dispatcher rejects a speed command; it does not return success, so the
command is not accepted as the claim states. -/
theorem C7_counterexample :
    (dispatch testDriver (Command.setSpeed 5) (initState 0)).1 = DispatchResult.rejected
    ∧ DispatchResult.rejected ≠ DispatchResult.result OperationOutcome.Completed := by
  exact ⟨by decide, by decide⟩

/-- C7 amended: when HasVariableSpeed is absent, a set-speed dispatch
is rejected rather than accepted; the SetFocuserSpeed primitive is not
invoked, while the requested speed is still recorded for diagnostics. -/
theorem C7_amended_setspeed_rejected (D : Driver) (s : FocuserState) (v : Int)
    (h : HasVariableSpeed s = false) :
    (dispatch D (Command.setSpeed v) s).1 = DispatchResult.rejected
    ∧ (dispatch D (Command.setSpeed v) s).2.2 = []
    ∧ ((dispatch D (Command.setSpeed v) s).2.1).motion.lastSpeed = some v := by
  have hc : hasRequiredCap s (Command.setSpeed v) = false := h
  rw [dispatch_of_rejected D s _ hc]
  simp [recordParams]

/-- Witness for the amended C7 at speed 5 on a no-capability
interface. -/
theorem C7_amended_setspeed_rejected_witness :
    HasVariableSpeed (initState 0) = false
    ∧ ((dispatch testDriver (Command.setSpeed 5) (initState 0)).1
          = DispatchResult.rejected
        ∧ (dispatch testDriver (Command.setSpeed 5) (initState 0)).2.2 = []
        ∧ ((dispatch testDriver (Command.setSpeed 5) (initState 0)).2.1).motion.lastSpeed
            = some 5) :=
  ⟨by decide, C7_amended_setspeed_rejected testDriver (initState 0) 5 (by decide)⟩

end INDI

namespace INDI

/-- C8: configuring the capability mask to exactly the absolute-move
bit makes CanAbsMove answer true and CanRelMove answer false. -/
theorem C8_capability_roundtrip :
    CanAbsMove (SetCapability FOCUSER_CAN_ABS_MOVE (initState 0)) = true
    ∧ CanRelMove (SetCapability FOCUSER_CAN_ABS_MOVE (initState 0)) = false := by
  decide

/-- A motion snapshot differing from the initial one, used to show the
capability queries ignore everything but the mask. -/
def mAlt : MotionState :=
  { initMotionState with
    lastAbsPos := some 9
    absOutcome := some OperationOutcome.InProgress }

/-- C9: every capability query is pure.  In this embedding the queries
are functions that return a value and no successor state, so they
cannot mutate anything; the theorem states the complementary facts that
any two states agreeing on the capability mask get identical answers
from all five queries, and that changing every other part of the state
leaves all five answers untouched. -/
theorem C9_queries_pure (s t : FocuserState) (m : MotionState)
    (h : s.capability = t.capability) :
    CanAbsMove s = CanAbsMove t
    ∧ CanRelMove s = CanRelMove t
    ∧ CanAbort s = CanAbort t
    ∧ HasVariableSpeed s = HasVariableSpeed t
    ∧ GetCapability s = GetCapability t
    ∧ CanAbsMove { s with motion := m } = CanAbsMove s
    ∧ CanRelMove { s with motion := m } = CanRelMove s
    ∧ CanAbort { s with motion := m } = CanAbort s
    ∧ HasVariableSpeed { s with motion := m } = HasVariableSpeed s
    ∧ GetCapability { s with motion := m } = GetCapability s := by
  simp [CanAbsMove, CanRelMove, CanAbort, HasVariableSpeed, GetCapability, h]

/-- Witness for C9 on two states sharing mask 5 with different motion
snapshots. -/
theorem C9_queries_pure_witness :
    (initState 5).capability = ({ capability := 5, motion := mAlt } : FocuserState).capability
    ∧ (CanAbsMove (initState 5) = CanAbsMove { capability := 5, motion := mAlt }
        ∧ CanRelMove (initState 5) = CanRelMove { capability := 5, motion := mAlt }
        ∧ CanAbort (initState 5) = CanAbort { capability := 5, motion := mAlt }
        ∧ HasVariableSpeed (initState 5)
            = HasVariableSpeed { capability := 5, motion := mAlt }
        ∧ GetCapability (initState 5) = GetCapability { capability := 5, motion := mAlt }
        ∧ CanAbsMove { initState 5 with motion := mAlt } = CanAbsMove (initState 5)
        ∧ CanRelMove { initState 5 with motion := mAlt } = CanRelMove (initState 5)
        ∧ CanAbort { initState 5 with motion := mAlt } = CanAbort (initState 5)
        ∧ HasVariableSpeed { initState 5 with motion := mAlt }
            = HasVariableSpeed (initState 5)
        ∧ GetCapability { initState 5 with motion := mAlt }
            = GetCapability (initState 5)) :=
  ⟨by decide,
    C9_queries_pure (initState 5) { capability := 5, motion := mAlt } mAlt (by decide)⟩

/-- C10: SetCapability accepts any 32-bit value without validation,
also with bits outside the four defined flags; GetCapability then
returns exactly that value, a later SetCapability unconditionally
replaces an earlier one, and all four capability queries immediately
reflect the latest mask. -/
theorem C10_setcapability_unvalidated (s : FocuserState) (cap cap2 : Nat)
    (h : cap < 2 ^ 32) :
    GetCapability (SetCapability cap s) = cap
    ∧ SetCapability cap (SetCapability cap2 s) = SetCapability cap s
    ∧ CanAbsMove (SetCapability cap s) = (cap &&& FOCUSER_CAN_ABS_MOVE != 0)
    ∧ CanRelMove (SetCapability cap s) = (cap &&& FOCUSER_CAN_REL_MOVE != 0)
    ∧ CanAbort (SetCapability cap s) = (cap &&& FOCUSER_CAN_ABORT != 0)
    ∧ HasVariableSpeed (SetCapability cap s)
        = (cap &&& FOCUSER_HAS_VARIABLE_SPEED != 0) := by
  have hm : cap % 4294967296 = cap := Nat.mod_eq_of_lt (by omega)
  refine ⟨?_, ?_, ?_, ?_, ?_, ?_⟩ <;>
    simp [GetCapability, SetCapability, CanAbsMove, CanRelMove, CanAbort,
      HasVariableSpeed, hm]

/-- Witness for C10 at mask 2147483665, which sets bit 31 and bit 4
outside the defined flags together with the absolute-move bit, after an
earlier mask 7. -/
theorem C10_setcapability_unvalidated_witness :
    2147483665 < 2 ^ 32
    ∧ (GetCapability (SetCapability 2147483665 (initState 3)) = 2147483665
        ∧ SetCapability 2147483665 (SetCapability 7 (initState 3))
            = SetCapability 2147483665 (initState 3)
        ∧ CanAbsMove (SetCapability 2147483665 (initState 3))
            = (2147483665 &&& FOCUSER_CAN_ABS_MOVE != 0)
        ∧ CanRelMove (SetCapability 2147483665 (initState 3))
            = (2147483665 &&& FOCUSER_CAN_REL_MOVE != 0)
        ∧ CanAbort (SetCapability 2147483665 (initState 3))
            = (2147483665 &&& FOCUSER_CAN_ABORT != 0)
        ∧ HasVariableSpeed (SetCapability 2147483665 (initState 3))
            = (2147483665 &&& FOCUSER_HAS_VARIABLE_SPEED != 0)) :=
  ⟨by decide, C10_setcapability_unvalidated (initState 3) 2147483665 7 (by decide)⟩

end INDI
